import Mathlib

/-!
Shallow embedding of the Reservation Coordinator of `src/Lending.js`
(the Express handlers `POST /api/transactions`, `PUT /api/transactions/:id`,
`POST /api/transactions/cancel`) over an explicit in-memory database state.

Modelling conventions:
- Mongo collections are Lean lists in insertion order; `findOne` is
  `List.find?`, `save`/`findOneAndUpdate` update the first matching record
  (`updateFirst` below), `updateMany` maps over the whole list.
- Dates are `Nat` ticks; `new Date()` is a `now` parameter of the operation.
- `uuid()` is a caller-supplied fresh id parameter `newId`.
- The `lastUpdated` field written by the cancel handler is not in the
  mongoose `transactionSchema`/`itemSchema`, so strict mode drops it; it is
  not modelled.
- A handler returns the post-state together with `Except`: `.ok` carries the
  success payload, `.error` the 4xx error it responds with (500/storage
  failures are out of scope).
-/

namespace Lending

inductive ItemStatus where
  | available
  | borrowed
deriving DecidableEq, Repr

inductive TxStatus where
  | pending
  | approved
  | rejected
  | cancelled
deriving DecidableEq, Repr

structure User where
  id : String
  name : String
  email : String
  password : String
deriving DecidableEq, Repr

structure Item where
  id : String
  name : String
  description : String
  ownerId : String
  status : ItemStatus
deriving DecidableEq, Repr

structure Transaction where
  id : String
  itemId : String
  lenderId : String
  borrowerId : String
  status : TxStatus
  startDate : Nat
  endDate : Option Nat
  borrowDate : Option Nat
deriving DecidableEq, Repr

structure DB where
  users : List User
  items : List Item
  transactions : List Transaction
deriving DecidableEq, Repr

/-- The 4xx errors the three transaction handlers can respond with. -/
inductive ApiError where
  | itemNotFound
  | selfBorrow
  | activeClaimExists
  | transactionNotFound
  | forbidden
  | invalidStatus
  | noActiveTransaction
deriving DecidableEq, Repr

/-- `status: { $in: ['pending', 'approved'] }` -/
def TxStatus.isActive : TxStatus → Bool
  | .pending => true
  | .approved => true
  | .rejected => false
  | .cancelled => false

/-- Update the first element satisfying `p` (mongoose `save` of a fetched
document / `findOneAndUpdate`). -/
def updateFirst (p : α → Bool) (f : α → α) : List α → List α
  | [] => []
  | x :: xs => if p x then f x :: xs else x :: updateFirst p f xs

/-- `POST /api/transactions` (lines 314-369): borrow request. -/
def requestBorrow (db : DB) (itemId borrowerId newId : String) (now : Nat) :
    DB × Except ApiError Transaction :=
  match db.items.find? (fun i => i.id == itemId) with
  | none => (db, .error .itemNotFound)
  | some item =>
    if item.ownerId == borrowerId then
      (db, .error .selfBorrow)
    else
      match db.transactions.find? (fun t => t.itemId == itemId && t.status.isActive) with
      | some _ => (db, .error .activeClaimExists)
      | none =>
        let t : Transaction :=
          { id := newId, itemId := itemId, lenderId := item.ownerId,
            borrowerId := borrowerId, status := .pending,
            startDate := now, endDate := none, borrowDate := none }
        ({ db with transactions := db.transactions ++ [t] }, .ok t)

/-- `PUT /api/transactions/:id` (lines 451-493): approve/reject.
The handler never checks the transaction's current status: it only checks
existence, that `userId` is the lender, and that the requested `status`
string is `approved` or `rejected`, then overwrites. -/
def updateTransaction (db : DB) (txnId status userId : String) (now : Nat) :
    DB × Except ApiError Transaction :=
  match db.transactions.find? (fun t => t.id == txnId) with
  | none => (db, .error .transactionNotFound)
  | some txn =>
    if txn.lenderId != userId then
      (db, .error .forbidden)
    else if !(status == "approved" || status == "rejected") then
      (db, .error .invalidStatus)
    else if status == "approved" then
      let txn' : Transaction := { txn with status := .approved, borrowDate := some now }
      ({ db with
          items := updateFirst (fun i => i.id == txn.itemId)
            (fun i => { i with status := .borrowed }) db.items,
          transactions := updateFirst (fun t => t.id == txnId) (fun _ => txn') db.transactions },
        .ok txn')
    else
      let txn' : Transaction := { txn with status := .rejected }
      ({ db with
          transactions := updateFirst (fun t => t.id == txnId) (fun _ => txn') db.transactions },
        .ok txn')

/-- `POST /api/transactions/cancel` (lines 496-590): cancel/return.
Note the order: the matching transaction is saved as `cancelled` *before*
the item is looked up, so a missing item yields a 404 after that write. -/
def cancelTransaction (db : DB) (itemId borrowerId : String) (now : Nat) :
    DB × Except ApiError (Transaction × Item) :=
  match db.transactions.find?
      (fun t => t.itemId == itemId && t.borrowerId == borrowerId && t.status.isActive) with
  | none => (db, .error .noActiveTransaction)
  | some txn =>
    let txn' : Transaction := { txn with status := .cancelled }
    let txs1 := updateFirst (fun t => t.id == txn.id) (fun _ => txn') db.transactions
    match db.items.find? (fun i => i.id == itemId) with
    | none => ({ db with transactions := txs1 }, .error .itemNotFound)
    | some item =>
      let item' : Item := { item with status := .available }
      let items' := updateFirst (fun i => i.id == itemId)
        (fun i => { i with status := .available }) db.items
      let txs2 := txs1.map
        (fun t => if t.itemId == itemId && t.status.isActive then { t with status := .cancelled } else t)
      ({ db with items := items', transactions := txs2 }, .ok (txn', item'))

/-- A Coordinator operation, for statements quantifying over all three. -/
inductive Op where
  | request (itemId borrowerId newId : String) (now : Nat)
  | decide (txnId status userId : String) (now : Nat)
  | cancel (itemId borrowerId : String) (now : Nat)
deriving DecidableEq, Repr

def errOf : Except ApiError α → Option ApiError
  | .ok _ => none
  | .error e => some e

/-- Run one operation: post-state plus the error it failed with, if any. -/
def applyOp (db : DB) : Op → DB × Option ApiError
  | .request itemId borrowerId newId now =>
    ((requestBorrow db itemId borrowerId newId now).1,
      errOf (requestBorrow db itemId borrowerId newId now).2)
  | .decide txnId status userId now =>
    ((updateTransaction db txnId status userId now).1,
      errOf (updateTransaction db txnId status userId now).2)
  | .cancel itemId borrowerId now =>
    ((cancelTransaction db itemId borrowerId now).1,
      errOf (cancelTransaction db itemId borrowerId now).2)

def runOps (db : DB) (ops : List Op) : DB :=
  ops.foldl (fun d op => (applyOp d op).1) db

/-- Transactions for `itemId` with status in `{pending, approved}`. -/
def activeTxns (db : DB) (itemId : String) : List Transaction :=
  db.transactions.filter (fun t => t.itemId == itemId && t.status.isActive)

def itemStatus (db : DB) (itemId : String) : Option ItemStatus :=
  (db.items.find? (fun i => i.id == itemId)).map (fun i => i.status)

/-- Invariant I2 as a decidable check: an item is `borrowed` iff some
transaction for it has status `approved`. -/
def i2Holds (db : DB) : Bool :=
  db.items.all (fun i =>
    (i.status == ItemStatus.borrowed)
      == db.transactions.any (fun t => t.itemId == i.id && t.status == TxStatus.approved))

/-- Item `i1`, owned by `u1`, available: the starting state of the spec's
scenarios. -/
def item1 : Item :=
  { id := "i1", name := "Drill", description := "a drill", ownerId := "u1",
    status := .available }

def db0 : DB := { users := [], items := [item1], transactions := [] }

/-- U2 requests i1, cancels, U3 requests i1, then the lender approves the
*cancelled* transaction t1 (the handler has no pending-status check). -/
def opsC1 : List Op :=
  [ .request "i1" "u2" "t1" 1,
    .cancel "i1" "u2" 2,
    .request "i1" "u3" "t2" 3,
    .decide "t1" "approved" "u1" 4 ]

/-- C1: the single-active-claim invariant I1 fails on the code: after the
Coordinator sequence `opsC1` (request by u2, cancel by u2, request by u3,
then approve of the already-cancelled t1), item i1 has TWO transactions
with status in {pending, approved}, because `PUT /api/transactions/:id`
never checks that the transaction is still pending. -/
theorem single_active_claim_violated :
    (activeTxns (runOps db0 opsC1) "i1").length = 2 := by decide

def opsC2 : List Op :=
  [ .request "i1" "u2" "t1" 1,
    .decide "t1" "approved" "u1" 2,
    .decide "t1" "rejected" "u1" 3 ]

/-- C2: the status/availability coupling I2 fails on the code: after
request, approve, then a second decision rejecting the already-approved
t1 (accepted because the handler has no pending-status check), item i1 is
still `borrowed` while no transaction for it has status `approved`. -/
theorem status_coupling_violated :
    i2Holds (runOps db0 opsC2) = false ∧
    itemStatus (runOps db0 opsC2) "i1" = some ItemStatus.borrowed ∧
    (runOps db0 opsC2).transactions.any (fun t => t.status == TxStatus.approved) = false := by
  refine ⟨by decide, by decide, by decide⟩

/-- State after u2's request on i1 was approved: t1 has status `approved`. -/
def dbApproved : DB :=
  runOps db0 [ .request "i1" "u2" "t1" 1, .decide "t1" "approved" "u1" 2 ]

/-- C3: `DecideRequest` on a non-pending transaction does NOT fail with
`InvalidTransition`: deciding `rejected` on the already-approved t1
succeeds (no error) and changes the state, overwriting t1's status with
`rejected`. The handler checks existence, lender and the decision string,
but never the current status. -/
theorem decide_no_pending_check :
    (applyOp dbApproved (.decide "t1" "rejected" "u1" 3)).2 = none ∧
    (applyOp dbApproved (.decide "t1" "rejected" "u1" 3)).1 ≠ dbApproved ∧
    ((applyOp dbApproved (.decide "t1" "rejected" "u1" 3)).1.transactions.find?
        (fun t => t.id == "t1")).map (fun t => t.status) = some TxStatus.rejected := by
  refine ⟨by decide, by decide, by decide⟩

/-- A pending transaction for item `i9`, which is absent from the item
collection. -/
def txOrphan : Transaction :=
  { id := "t9", itemId := "i9", lenderId := "u1", borrowerId := "u2",
    status := .pending, startDate := 0, endDate := none, borrowDate := none }

def dbOrphan : DB := { users := [], items := [], transactions := [txOrphan] }

/-- C4 as stated is false: `CancelOrReturn` on a state holding an active
transaction whose item record is missing returns the failure
`NotFound(item)` but has already written the transaction as `cancelled` —
the cancel handler saves the transaction before looking up the item. -/
theorem cancel_partial_write_on_failure :
    (applyOp dbOrphan (.cancel "i9" "u2" 5)).2 = some ApiError.itemNotFound ∧
    (applyOp dbOrphan (.cancel "i9" "u2" 5)).1 ≠ dbOrphan ∧
    ((applyOp dbOrphan (.cancel "i9" "u2" 5)).1.transactions.find?
        (fun t => t.id == "t9")).map (fun t => t.status) = some TxStatus.cancelled := by
  refine ⟨by decide, by decide, by decide⟩

theorem requestBorrow_error_state (db : DB) (itemId borrowerId newId : String) (now : Nat)
    (e : ApiError) (h : (requestBorrow db itemId borrowerId newId now).2 = Except.error e) :
    (requestBorrow db itemId borrowerId newId now).1 = db := by
  rcases hfind : db.items.find? (fun i => i.id == itemId) with _ | item
  · simp [requestBorrow, hfind]
  · cases ho : item.ownerId == borrowerId
    · rcases hact : db.transactions.find? (fun t => t.itemId == itemId && t.status.isActive) with
        _ | t
      · simp [requestBorrow, hfind, ho, hact] at h
      · simp [requestBorrow, hfind, ho, hact]
    · simp [requestBorrow, hfind, ho]

theorem updateTransaction_error_state (db : DB) (txnId status userId : String) (now : Nat)
    (e : ApiError) (h : (updateTransaction db txnId status userId now).2 = Except.error e) :
    (updateTransaction db txnId status userId now).1 = db := by
  rcases hfind : db.transactions.find? (fun t => t.id == txnId) with _ | txn
  · simp [updateTransaction, hfind]
  · cases hl : txn.lenderId != userId
    · cases hs : (status == "approved" || status == "rejected")
      · simp [updateTransaction, hfind, hl, hs]
      · cases ha : status == "approved"
        · simp only [ha, Bool.false_or] at hs
          simp [updateTransaction, hfind, hl, hs, ha] at h
        · simp [updateTransaction, hfind, hl, hs, ha] at h
    · simp [updateTransaction, hfind, hl]

theorem cancelTransaction_error_state (db : DB) (itemId borrowerId : String) (now : Nat)
    (e : ApiError) (h : (cancelTransaction db itemId borrowerId now).2 = Except.error e) :
    (cancelTransaction db itemId borrowerId now).1 = db ∨
      (e = ApiError.itemNotFound ∧
        db.items.find? (fun i => i.id == itemId) = none ∧
        (cancelTransaction db itemId borrowerId now).1.items = db.items ∧
        (cancelTransaction db itemId borrowerId now).1.users = db.users) := by
  rcases hfind : db.transactions.find?
      (fun t => t.itemId == itemId && t.borrowerId == borrowerId && t.status.isActive) with
    _ | txn
  · left; simp [cancelTransaction, hfind]
  · rcases hitem : db.items.find? (fun i => i.id == itemId) with _ | item
    · right
      have he : ApiError.itemNotFound = e := by
        simpa [cancelTransaction, hfind, hitem] using h
      refine ⟨he.symm, hitem, ?_, ?_⟩ <;> simp [cancelTransaction, hfind, hitem]
    · simp [cancelTransaction, hfind, hitem] at h

/-- C4, amended: whenever a Coordinator operation returns a failure, no
write has occurred — EXCEPT for `CancelOrReturn` when the item record is
missing, which fails `NotFound(item)` only after having saved the matching
active transaction as `cancelled` (users and items are still untouched
there). -/
theorem op_failure_atomicity_amended (db : DB) (op : Op) (e : ApiError)
    (h : (applyOp db op).2 = some e) :
    (applyOp db op).1 = db ∨
      (∃ itemId borrowerId now, op = Op.cancel itemId borrowerId now ∧
        e = ApiError.itemNotFound ∧
        db.items.find? (fun i => i.id == itemId) = none ∧
        (applyOp db op).1.items = db.items ∧
        (applyOp db op).1.users = db.users) := by
  cases op with
  | request itemId borrowerId newId now =>
    left
    simp only [applyOp] at h ⊢
    rcases hr : (requestBorrow db itemId borrowerId newId now).2 with e' | t
    · exact requestBorrow_error_state db itemId borrowerId newId now e' hr
    · rw [hr] at h; simp [errOf] at h
  | decide txnId status userId now =>
    left
    simp only [applyOp] at h ⊢
    rcases hr : (updateTransaction db txnId status userId now).2 with e' | t
    · exact updateTransaction_error_state db txnId status userId now e' hr
    · rw [hr] at h; simp [errOf] at h
  | cancel itemId borrowerId now =>
    simp only [applyOp] at h ⊢
    rcases hr : (cancelTransaction db itemId borrowerId now).2 with e' | t
    · rw [hr] at h; simp only [errOf, Option.some.injEq] at h
      rcases cancelTransaction_error_state db itemId borrowerId now e' hr with h1 | ⟨h1, h2, h3, h4⟩
      · exact Or.inl h1
      · exact Or.inr ⟨itemId, borrowerId, now, rfl, h ▸ h1, h2, h3, h4⟩
    · rw [hr] at h; simp [errOf] at h

/-- Witness for the amended C4 theorem at a concrete failing operation. -/
theorem op_failure_atomicity_amended_witness :
    (applyOp db0 (.request "nope" "u2" "t1" 0)).1 = db0 ∨
      (∃ itemId borrowerId now,
        Op.request "nope" "u2" "t1" 0 = Op.cancel itemId borrowerId now ∧
        ApiError.itemNotFound = ApiError.itemNotFound ∧
        db0.items.find? (fun i => i.id == itemId) = none ∧
        (applyOp db0 (.request "nope" "u2" "t1" 0)).1.items = db0.items ∧
        (applyOp db0 (.request "nope" "u2" "t1" 0)).1.users = db0.users) :=
  op_failure_atomicity_amended db0 (.request "nope" "u2" "t1" 0) ApiError.itemNotFound (by decide)

/-- C5: `RequestBorrow` checks its preconditions in order, first failure
winning: missing item gives `NotFound(item)`; existing item owned by the
borrower gives `Conflict(self_borrow)`; otherwise an existing active
transaction for the item gives `Conflict(active_claim_exists)`. -/
theorem requestBorrow_precondition_order (db : DB) (itemId borrowerId newId : String) (now : Nat) :
    (db.items.find? (fun i => i.id == itemId) = none →
      (requestBorrow db itemId borrowerId newId now).2 = Except.error ApiError.itemNotFound) ∧
    (∀ item, db.items.find? (fun i => i.id == itemId) = some item →
      item.ownerId = borrowerId →
      (requestBorrow db itemId borrowerId newId now).2 = Except.error ApiError.selfBorrow) ∧
    (∀ item, db.items.find? (fun i => i.id == itemId) = some item →
      item.ownerId ≠ borrowerId →
      (db.transactions.find? (fun t => t.itemId == itemId && t.status.isActive)).isSome = true →
      (requestBorrow db itemId borrowerId newId now).2 = Except.error ApiError.activeClaimExists) := by
  refine ⟨?_, ?_, ?_⟩
  · intro h
    simp [requestBorrow, h]
  · intro item h ho
    simp [requestBorrow, h, ho]
  · intro item h ho hact
    rcases ha : db.transactions.find? (fun t => t.itemId == itemId && t.status.isActive) with
      _ | t
    · rw [ha] at hact; simp at hact
    · simp [requestBorrow, h, ho, ha]

/-- Witness exercising all three branches of `requestBorrow_precondition_order`. -/
theorem requestBorrow_precondition_order_witness :
    (requestBorrow { users := [], items := [], transactions := [] } "i1" "u2" "t1" 0).2
        = Except.error ApiError.itemNotFound ∧
    (requestBorrow db0 "i1" "u1" "t1" 0).2 = Except.error ApiError.selfBorrow ∧
    (requestBorrow dbApproved "i1" "u3" "t2" 9).2 = Except.error ApiError.activeClaimExists :=
  ⟨(requestBorrow_precondition_order { users := [], items := [], transactions := [] }
      "i1" "u2" "t1" 0).1 rfl,
   (requestBorrow_precondition_order db0 "i1" "u1" "t1" 0).2.1 item1 (by decide) rfl,
   (requestBorrow_precondition_order dbApproved "i1" "u3" "t2" 9).2.2
      { item1 with status := .borrowed } (by decide) (by decide) (by decide)⟩

lemma requestBorrow_items_unchanged (db : DB) (itemId borrowerId newId : String) (now : Nat) :
    (requestBorrow db itemId borrowerId newId now).1.items = db.items := by
  rcases hfind : db.items.find? (fun i => i.id == itemId) with _ | item
  · simp [requestBorrow, hfind]
  · cases ho : item.ownerId == borrowerId
    · rcases hact : db.transactions.find? (fun t => t.itemId == itemId && t.status.isActive) with
        _ | t
      · simp [requestBorrow, hfind, ho, hact]
      · simp [requestBorrow, hfind, ho, hact]
    · simp [requestBorrow, hfind, ho]

lemma updateTransaction_items_of_not_approved (db : DB) (txnId status userId : String) (now : Nat)
    (ha : (status == "approved") = false) :
    (updateTransaction db txnId status userId now).1.items = db.items := by
  rcases hfind : db.transactions.find? (fun t => t.id == txnId) with _ | txn
  · simp [updateTransaction, hfind]
  · cases hl : txn.lenderId != userId
    · cases hs : (status == "approved" || status == "rejected")
      · simp [updateTransaction, hfind, hl, hs]
      · simp only [ha, Bool.false_or] at hs
        simp [updateTransaction, hfind, hl, hs, ha]
    · simp [updateTransaction, hfind, hl]

/-- If after setting the first item with id `k` to `available` the item found
under `id` is `borrowed`, it was already `borrowed` before. -/
lemma borrowed_after_setAvailable (items : List Item) (k id : String)
    (h : (((updateFirst (fun i => i.id == k) (fun i => { i with status := ItemStatus.available })
        items).find? (fun i => i.id == id)).map (fun i => i.status)) = some ItemStatus.borrowed) :
    ((items.find? (fun i => i.id == id)).map (fun i => i.status)) = some ItemStatus.borrowed := by
  induction items with
  | nil => simp [updateFirst] at h
  | cons x xs ih =>
    by_cases hk : (x.id == k) = true
    · by_cases hid : (x.id == id) = true
      · rw [updateFirst, if_pos hk] at h
        rw [List.find?_cons_of_pos _ (by simpa using hid)] at h
        simp at h
      · rw [updateFirst, if_pos hk] at h
        rw [List.find?_cons_of_neg _ (by simpa using hid)] at h
        rw [List.find?_cons_of_neg _ (by simpa using hid)]
        exact h
    · by_cases hid : (x.id == id) = true
      · rw [updateFirst, if_neg hk] at h
        rw [List.find?_cons_of_pos _ (by simpa using hid)] at h
        rw [List.find?_cons_of_pos _ (by simpa using hid)]
        exact h
      · rw [updateFirst, if_neg hk] at h
        rw [List.find?_cons_of_neg _ (by simpa using hid)] at h
        rw [List.find?_cons_of_neg _ (by simpa using hid)]
        exact ih h

/-- Is the operation a `DecideRequest` carrying the decision `approved`? -/
def isApproveOp : Op → Bool
  | .decide _ status _ _ => status == "approved"
  | _ => false

/-- C6: a successful `rejected` decision leaves the item collection
untouched, and across all three Coordinator operations only a
`DecideRequest` carrying `approved` can turn an item's status to
`borrowed` (any other operation can only leave or clear `borrowed`). -/
theorem reject_frame_and_only_approval_borrows (db : DB) (op : Op) :
    (∀ txnId userId now, op = Op.decide txnId "rejected" userId now →
      (applyOp db op).2 = none → (applyOp db op).1.items = db.items) ∧
    (isApproveOp op = false →
      ∀ id, itemStatus (applyOp db op).1 id = some ItemStatus.borrowed →
        itemStatus db id = some ItemStatus.borrowed) := by
  constructor
  · rintro txnId userId now rfl _h
    simp only [applyOp]
    exact updateTransaction_items_of_not_approved db txnId "rejected" userId now (by decide)
  · intro hap id hb
    cases op with
    | request itemId borrowerId newId now =>
      unfold itemStatus at hb ⊢
      simp only [applyOp] at hb
      rw [requestBorrow_items_unchanged] at hb
      exact hb
    | decide txnId status userId now =>
      unfold itemStatus at hb ⊢
      simp only [applyOp] at hb
      rw [updateTransaction_items_of_not_approved db txnId status userId now
        (by simpa [isApproveOp] using hap)] at hb
      exact hb
    | cancel itemId borrowerId now =>
      unfold itemStatus at hb ⊢
      simp only [applyOp] at hb
      rcases hfind : db.transactions.find?
          (fun t => t.itemId == itemId && t.borrowerId == borrowerId && t.status.isActive) with
        _ | txn
      · rw [show (cancelTransaction db itemId borrowerId now).1 = db by
          simp [cancelTransaction, hfind]] at hb
        exact hb
      · rcases hitem : db.items.find? (fun i => i.id == itemId) with _ | item
        · rw [show (cancelTransaction db itemId borrowerId now).1.items = db.items by
            simp [cancelTransaction, hfind, hitem]] at hb
          exact hb
        · rw [show (cancelTransaction db itemId borrowerId now).1.items =
              updateFirst (fun i => i.id == itemId)
                (fun i => { i with status := ItemStatus.available }) db.items by
            simp [cancelTransaction, hfind, hitem]] at hb
          exact borrowed_after_setAvailable db.items itemId id hb

/-- State with one pending request t1 by u2 on i1. -/
def dbPending : DB := runOps db0 [ .request "i1" "u2" "t1" 1 ]

def itemB : Item :=
  { id := "iB", name := "B", description := "b", ownerId := "u1", status := .borrowed }

def dbItemB : DB := { users := [], items := [itemB], transactions := [] }

/-- Witness for both halves of `reject_frame_and_only_approval_borrows`:
a concrete successful rejection, and a concrete non-approve operation
observed on a borrowed item. -/
theorem reject_frame_and_only_approval_borrows_witness :
    (applyOp dbPending (Op.decide "t1" "rejected" "u1" 2)).1.items = dbPending.items ∧
    itemStatus dbItemB "iB" = some ItemStatus.borrowed :=
  ⟨(reject_frame_and_only_approval_borrows dbPending (Op.decide "t1" "rejected" "u1" 2)).1
      "t1" "u1" 2 rfl (by decide),
   (reject_frame_and_only_approval_borrows dbItemB (Op.request "zz" "u9" "t9" 0)).2
      (by decide) "iB" (by decide)⟩

lemma updateFirst_length (p : α → Bool) (f : α → α) (l : List α) :
    (updateFirst p f l).length = l.length := by
  induction l with
  | nil => rfl
  | cons x xs ih =>
    rw [updateFirst]
    by_cases h : p x = true
    · rw [if_pos h]; simp
    · rw [if_neg h]; simp [ih]

lemma updateFirst_getElem? (p : α → Bool) (f : α → α) (l : List α) (k : Nat) :
    (updateFirst p f l)[k]? = l[k]? ∨
      (∃ a, l[k]? = some a ∧ p a = true ∧ (updateFirst p f l)[k]? = some (f a)) := by
  induction l generalizing k with
  | nil => left; simp [updateFirst]
  | cons x xs ih =>
    by_cases hx : p x = true
    · rw [updateFirst, if_pos hx]
      cases k with
      | zero => right; exact ⟨x, by simp, hx, by simp⟩
      | succ n => left; simp
    · rw [updateFirst, if_neg hx]
      cases k with
      | zero => left; simp
      | succ n =>
        simp only [List.getElem?_cons_succ]
        exact ih n

/-- After updating the first item with id `k` to `available`, looking up
id `k` yields an `available` item (assuming one was found before). -/
lemma find?_setAvailable (items : List Item) (k : String) (item : Item)
    (h : items.find? (fun i => i.id == k) = some item) :
    (((updateFirst (fun i => i.id == k) (fun i => { i with status := ItemStatus.available })
        items).find? (fun i => i.id == k)).map (fun i => i.status)) = some ItemStatus.available := by
  induction items with
  | nil => simp at h
  | cons x xs ih =>
    by_cases hk : (x.id == k) = true
    · rw [updateFirst, if_pos hk]
      rw [List.find?_cons_of_pos _ (by simpa using hk)]
      simp
    · rw [updateFirst, if_neg hk]
      rw [List.find?_cons_of_neg _ (by simpa using hk)]
      rw [List.find?_cons_of_neg _ (by simpa using hk)] at h
      exact ih h

lemma cancelTransaction_ok_shape (db : DB) (itemId borrowerId : String) (now : Nat)
    (p : Transaction × Item)
    (h : (cancelTransaction db itemId borrowerId now).2 = Except.ok p) :
    ∃ txn item,
      db.transactions.find?
        (fun t => t.itemId == itemId && t.borrowerId == borrowerId && t.status.isActive)
          = some txn ∧
      db.items.find? (fun i => i.id == itemId) = some item ∧
      p = ({ txn with status := TxStatus.cancelled }, { item with status := ItemStatus.available }) ∧
      (cancelTransaction db itemId borrowerId now).1 =
        { users := db.users,
          items := updateFirst (fun i => i.id == itemId)
            (fun i => { i with status := ItemStatus.available }) db.items,
          transactions :=
            (updateFirst (fun t => t.id == txn.id)
              (fun _ => { txn with status := TxStatus.cancelled }) db.transactions).map
              (fun t => if t.itemId == itemId && t.status.isActive
                then { t with status := TxStatus.cancelled } else t) } := by
  rcases hfind : db.transactions.find?
      (fun t => t.itemId == itemId && t.borrowerId == borrowerId && t.status.isActive) with
    _ | txn
  · simp [cancelTransaction, hfind] at h
  · rcases hitem : db.items.find? (fun i => i.id == itemId) with _ | item
    · simp [cancelTransaction, hfind, hitem] at h
    · have h2 : (cancelTransaction db itemId borrowerId now).2 =
          Except.ok ({ txn with status := TxStatus.cancelled },
            { item with status := ItemStatus.available }) := by
        simp [cancelTransaction, hfind, hitem]
      have hp : p = ({ txn with status := TxStatus.cancelled },
          { item with status := ItemStatus.available }) :=
        (Except.ok.inj (h2.symm.trans h)).symm
      exact ⟨txn, item, hfind, hitem, hp, by simp [cancelTransaction, hfind, hitem]⟩

/-- C7: a successful `CancelOrReturn` cancels the matching transaction,
sets the item `available`, and (same length, position by position) turns
every transaction for the same item that was still `pending`/`approved`
into a `cancelled` one with the same id. -/
theorem cancel_success_cascade (db : DB) (itemId borrowerId : String) (now : Nat)
    (p : Transaction × Item)
    (h : (cancelTransaction db itemId borrowerId now).2 = Except.ok p) :
    p.1.status = TxStatus.cancelled ∧
    itemStatus (cancelTransaction db itemId borrowerId now).1 itemId = some ItemStatus.available ∧
    (cancelTransaction db itemId borrowerId now).1.transactions.length
      = db.transactions.length ∧
    (∀ (k : Nat) (t0 : Transaction), db.transactions[k]? = some t0 → t0.itemId = itemId →
      t0.status.isActive = true →
      ∃ t1 : Transaction,
        (cancelTransaction db itemId borrowerId now).1.transactions[k]? = some t1 ∧
        t1.status = TxStatus.cancelled ∧ t1.id = t0.id) := by
  obtain ⟨txn, item, hfind, hitem, hp, hst⟩ :=
    cancelTransaction_ok_shape db itemId borrowerId now p h
  refine ⟨by rw [hp], ?_, ?_, ?_⟩
  · unfold itemStatus
    rw [hst]
    exact find?_setAvailable db.items itemId item hitem
  · rw [hst]
    simp [updateFirst_length]
  · intro k t0 hk hitm hact
    rw [hst]
    simp only [List.getElem?_map]
    rcases updateFirst_getElem? (fun t => t.id == txn.id)
        (fun _ => { txn with status := TxStatus.cancelled }) db.transactions k with
      hA | ⟨a, ha, hpa, hres⟩
    · refine ⟨{ t0 with status := TxStatus.cancelled }, ?_, rfl, rfl⟩
      rw [hA, hk]
      simp [hitm, hact]
    · rw [hk] at ha
      injection ha with ha
      subst ha
      refine ⟨{ txn with status := TxStatus.cancelled }, ?_, rfl, ?_⟩
      · rw [hres]
        simp [TxStatus.isActive]
      · exact (beq_iff_eq.mp hpa).symm

/-- No transaction for `itemId` is left active by the cascading
`updateMany` of the cancel handler. -/
lemma no_active_left (txs1 : List Transaction) (itemId borrowerId : String) :
    (txs1.map (fun t => if t.itemId == itemId && t.status.isActive
        then { t with status := TxStatus.cancelled } else t)).find?
      (fun t => t.itemId == itemId && t.borrowerId == borrowerId && t.status.isActive)
      = none := by
  rw [List.find?_eq_none]
  intro t ht
  rcases List.mem_map.mp ht with ⟨s, _hs, rfl⟩
  by_cases hc : (s.itemId == itemId && s.status.isActive) = true
  · rw [if_pos hc]
    simp [TxStatus.isActive]
  · rw [if_neg hc]
    intro hcon
    simp only [Bool.and_eq_true] at hcon hc
    exact hc ⟨hcon.1.1, hcon.2⟩

/-- C9: after a successful `CancelOrReturn`, an immediately repeated call
for the same `(itemId, borrowerId)` fails with `NotFound(active_transaction)`,
changes nothing, and the item stays `available`. -/
theorem cancel_second_call_fails (db : DB) (itemId borrowerId : String) (now now' : Nat)
    (p : Transaction × Item)
    (h : (cancelTransaction db itemId borrowerId now).2 = Except.ok p) :
    (cancelTransaction (cancelTransaction db itemId borrowerId now).1 itemId borrowerId now').2
        = Except.error ApiError.noActiveTransaction ∧
    (cancelTransaction (cancelTransaction db itemId borrowerId now).1 itemId borrowerId now').1
        = (cancelTransaction db itemId borrowerId now).1 ∧
    itemStatus (cancelTransaction db itemId borrowerId now).1 itemId
        = some ItemStatus.available := by
  obtain ⟨txn, item, hfind, hitem, hp, hst⟩ :=
    cancelTransaction_ok_shape db itemId borrowerId now p h
  have hnone : (cancelTransaction db itemId borrowerId now).1.transactions.find?
      (fun t => t.itemId == itemId && t.borrowerId == borrowerId && t.status.isActive)
      = none := by
    rw [hst]
    exact no_active_left _ itemId borrowerId
  have key : ∀ d : DB, d.transactions.find?
      (fun t => t.itemId == itemId && t.borrowerId == borrowerId && t.status.isActive) = none →
      cancelTransaction d itemId borrowerId now' = (d, Except.error ApiError.noActiveTransaction) := by
    intro d hn
    simp [cancelTransaction, hn]
  refine ⟨?_, ?_, ?_⟩
  · rw [key _ hnone]
  · rw [key _ hnone]
  · unfold itemStatus
    rw [hst]
    exact find?_setAvailable db.items itemId item hitem

/-- The transaction/item pair returned by cancelling t1 on i1. -/
def pW : Transaction × Item :=
  ({ id := "t1", itemId := "i1", lenderId := "u1", borrowerId := "u2",
     status := .cancelled, startDate := 1, endDate := none, borrowDate := none },
   { item1 with status := .available })

/-- Witness for `cancel_success_cascade` at the concrete state `dbPending`. -/
theorem cancel_success_cascade_witness :
    pW.1.status = TxStatus.cancelled ∧
    itemStatus (cancelTransaction dbPending "i1" "u2" 2).1 "i1" = some ItemStatus.available :=
  ⟨(cancel_success_cascade dbPending "i1" "u2" 2 pW rfl).1,
   (cancel_success_cascade dbPending "i1" "u2" 2 pW rfl).2.1⟩

/-- Witness for `cancel_second_call_fails` at the concrete state `dbPending`. -/
theorem cancel_second_call_fails_witness :
    (cancelTransaction (cancelTransaction dbPending "i1" "u2" 2).1 "i1" "u2" 3).2
        = Except.error ApiError.noActiveTransaction ∧
    itemStatus (cancelTransaction dbPending "i1" "u2" 2).1 "i1" = some ItemStatus.available :=
  ⟨(cancel_second_call_fails dbPending "i1" "u2" 2 3 pW rfl).1,
   (cancel_second_call_fails dbPending "i1" "u2" 2 3 pW rfl).2.2⟩

lemma requestBorrow_ok_shape (db : DB) (itemId borrowerId newId : String) (now : Nat)
    (t : Transaction)
    (h : (requestBorrow db itemId borrowerId newId now).2 = Except.ok t) :
    ∃ item, db.items.find? (fun i => i.id == itemId) = some item ∧
      (item.ownerId == borrowerId) = false ∧
      db.transactions.find? (fun tr => tr.itemId == itemId && tr.status.isActive) = none ∧
      t = { id := newId, itemId := itemId, lenderId := item.ownerId, borrowerId := borrowerId,
            status := TxStatus.pending, startDate := now, endDate := none, borrowDate := none } ∧
      (requestBorrow db itemId borrowerId newId now).1 =
        { db with transactions := db.transactions ++ [t] } := by
  rcases hfind : db.items.find? (fun i => i.id == itemId) with _ | item
  · simp [requestBorrow, hfind] at h
  · cases ho : item.ownerId == borrowerId
    · rcases hact : db.transactions.find? (fun tr => tr.itemId == itemId && tr.status.isActive)
        with _ | tr
      · have h2 : (requestBorrow db itemId borrowerId newId now).2 =
            Except.ok
              ({ id := newId, itemId := itemId, lenderId := item.ownerId,
                 borrowerId := borrowerId, status := TxStatus.pending,
                 startDate := now, endDate := none, borrowDate := none } : Transaction) := by
          simp [requestBorrow, hfind, ho, hact]
        have ht : t =
            ({ id := newId, itemId := itemId, lenderId := item.ownerId,
               borrowerId := borrowerId, status := TxStatus.pending,
               startDate := now, endDate := none, borrowDate := none } : Transaction) :=
          (Except.ok.inj (h2.symm.trans h)).symm
        refine ⟨item, hfind, ho, hact, ht, ?_⟩
        rw [ht]
        simp [requestBorrow, hfind, ho, hact]
      · simp [requestBorrow, hfind, ho, hact] at h
    · simp [requestBorrow, hfind, ho] at h

/-- C8: a successful `RequestBorrow` appends exactly one new transaction
with status `pending`, `lenderId = item.ownerId` and `startDate = now`,
and touches nothing else: users and items (hence the item's status) are
unchanged. -/
theorem request_success_effect (db : DB) (itemId borrowerId newId : String) (now : Nat)
    (t : Transaction)
    (h : (requestBorrow db itemId borrowerId newId now).2 = Except.ok t) :
    (requestBorrow db itemId borrowerId newId now).1.users = db.users ∧
    (requestBorrow db itemId borrowerId newId now).1.items = db.items ∧
    (requestBorrow db itemId borrowerId newId now).1.transactions = db.transactions ++ [t] ∧
    t.status = TxStatus.pending ∧
    t.startDate = now ∧
    t.itemId = itemId ∧
    t.borrowerId = borrowerId ∧
    ∃ item, db.items.find? (fun i => i.id == itemId) = some item ∧
      t.lenderId = item.ownerId := by
  obtain ⟨item, hfind, ho, hact, ht, hst⟩ :=
    requestBorrow_ok_shape db itemId borrowerId newId now t h
  exact ⟨by rw [hst], by rw [hst], by rw [hst], by rw [ht], by rw [ht], by rw [ht],
    by rw [ht], item, hfind, by rw [ht]⟩

/-- Witness for `request_success_effect`: u2's request on i1 in `db0`. -/
theorem request_success_effect_witness :
    (requestBorrow db0 "i1" "u2" "t1" 1).1.transactions = db0.transactions ++
      [{ id := "t1", itemId := "i1", lenderId := "u1", borrowerId := "u2",
         status := TxStatus.pending, startDate := 1, endDate := none, borrowDate := none }] ∧
    (requestBorrow db0 "i1" "u2" "t1" 1).1.items = db0.items :=
  ⟨(request_success_effect db0 "i1" "u2" "t1" 1 _ rfl).2.2.1,
   (request_success_effect db0 "i1" "u2" "t1" 1 _ rfl).2.1⟩

/-- C10: `RequestBorrow` never consults the User collection: when the item
exists, the borrower is not the owner, and no active transaction exists,
a pending transaction is created even if no User record with id
`borrowerId` exists. -/
theorem request_ignores_user_existence (db : DB) (itemId borrowerId newId : String) (now : Nat)
    (item : Item)
    (hitem : db.items.find? (fun i => i.id == itemId) = some item)
    (hown : (item.ownerId == borrowerId) = false)
    (hact : db.transactions.find? (fun t => t.itemId == itemId && t.status.isActive) = none)
    (husers : ∀ u ∈ db.users, u.id ≠ borrowerId) :
    ∃ t, (requestBorrow db itemId borrowerId newId now).2 = Except.ok t ∧
      t.status = TxStatus.pending := by
  refine
    ⟨{ id := newId, itemId := itemId, lenderId := item.ownerId, borrowerId := borrowerId,
       status := TxStatus.pending, startDate := now, endDate := none, borrowDate := none },
      ?_, rfl⟩
  simp [requestBorrow, hitem, hown, hact]

/-- Witness for `request_ignores_user_existence`: `db0` has an empty User
collection, yet u2's request on i1 succeeds with a pending transaction. -/
theorem request_ignores_user_existence_witness :
    ∃ t, (requestBorrow db0 "i1" "u2" "t1" 1).2 = Except.ok t ∧
      t.status = TxStatus.pending :=
  request_ignores_user_existence db0 "i1" "u2" "t1" 1 item1
    (by decide) (by decide) (by decide) (by simp [db0])

end Lending
